import Mathlib

/-!
Verification of the comboat AT-command WiFi driver (package `comboat`):
the line/frame parser (`processUART`/`serviceUART`), the per-socket
receive queuing (`Recv` and SocketDown delivery), the socket table
(`Socket`/`Close`), and the error catalog (`errStrings`/`getErrStr`).

Bytes are modelled as `Nat` (values < 256 on real inputs; no arithmetic
is done on them, only equality), byte strings as `List Nat`.
-/

namespace Comboat

/-- ASCII bytes of a Lean string.  Every protocol string in the driver is
ASCII, so UTF-8 bytes coincide with code points. -/
def bytesOf (s : String) : List Nat := s.data.map Char.toNat

/-- Go `bytes.Split(resp, del)` for a single-byte separator: split around
every occurrence of `sep`; the empty input yields one empty part. -/
def splitAll (sep : Nat) : List Nat → List (List Nat)
  | [] => [[]]
  | b :: rest =>
    if b = sep then [] :: splitAll sep rest
    else
      match splitAll sep rest with
      | [] => [[b]]
      | p :: ps => (b :: p) :: ps

/-- Split at the first occurrence of `sep`: `some (before, after)`, or
`none` when `sep` does not occur. -/
def splitFirst (sep : Nat) : List Nat → Option (List Nat × List Nat)
  | [] => none
  | b :: rest =>
    if b = sep then some ([], rest)
    else (splitFirst sep rest).map (fun p => (b :: p.1, p.2))

/-- Go `bytes.SplitN(s, sep, n)` for a single-byte separator and `n > 0`:
at most `n` parts, the last part keeps the remaining separators. -/
def splitN (sep : Nat) : Nat → List Nat → List (List Nat)
  | 0, _ => []
  | 1, l => [l]
  | n + 2, l =>
    match splitFirst sep l with
    | none => [l]
    | some p => p.1 :: splitN sep (n + 1) p.2

/-- ASCII decimal digit test. -/
def isDigit (b : Nat) : Bool := 48 ≤ b && b ≤ 57

/-- Accumulate decimal digits; `none` on the first non-digit byte. -/
def digitsVal : List Nat → Nat → Option Nat
  | [], acc => some acc
  | b :: rest, acc =>
    if isDigit b then digitsVal rest (acc * 10 + (b - 48)) else none

/-- Go `strconv.Atoi` on a byte string: optional sign then one or more
decimal digits, nothing else.  (Go additionally range-checks against the
64-bit int range; the codes and lengths handled by this driver are tiny,
so the range check never fires on reachable inputs.) -/
def atoi (s : List Nat) : Option Int :=
  match s with
  | [] => none
  | 43 :: rest =>
    if rest = [] then none else (digitsVal rest 0).map Int.ofNat
  | 45 :: rest =>
    if rest = [] then none else (digitsVal rest 0).map (fun n => -(n : Int))
  | _ => (digitsVal s 0).map Int.ofNat

/-- The driver's error catalog `errStrings` (a Go `map[int]string`),
entry for entry. -/
def errStrings : Int → Option String
  | 0 => some "success"
  | 1 => some "The command is not supported (the combo framework contains the command but the current platform has not transplanted or adapted to support it)"
  | 2 => some "The command parameters contain unsupported operations (the current platform only supports some operations for this command)"
  | 3 => some "The instruction format is incorrect (this refers to the wrong number of parameters, for example, two parameters are required, but only one parameter is entered)"
  | 4 => some "Parameter error (the content of the parameter is wrong, for example, a number between 0 and 9 is required, but 10 or xyz is passed in, which is a parameter error)"
  | 5 => some "Parameter length error (command length exceeds the maximum supported length)"
  | 31 => some "The current command has not ended and needs to report the status asynchronously. This value is used by the state machine to determine the use of the command and no message is returned."
  | 32 => some "Unknown error (or unhandled error type)"
  | 33 => some "malloc error"
  | 34 => some "Failed to read buf"
  | 35 => some "Failed to write buf"
  | 36 => some "Configuration error (configuration error loaded from memory, for example, we set port -1 for OTA upgrade, and check port error when executing AT+OTA, then configuration error will be reported)"
  | 37 => some "Failed to create task"
  | 38 => some "Flash read and write failure"
  | 39 => some "Serial port configuration error, unsupported baud rate"
  | 40 => some "Serial port configuration error, unsupported data bits"
  | 41 => some "Serial port configuration error, unsupported stop bit"
  | 42 => some "Serial port configuration error, unsupported parity bit"
  | 43 => some "Serial port configuration error, unsupported flow control"
  | 44 => some "Serial port configuration failed"
  | 45 => some "Wrong username/password"
  | 46 => some "Low power mode error or unsupported low power mode"
  | 47 => some "Uninitialized configuration data error (including io mapping data)"
  | 63 => some "General error code (without other information)"
  | 64 => some "Wi-Fi not initialized or initialization failed"
  | 65 => some "Wi-Fi mode error (unable to connect to Wi-Fi in single AP mode)"
  | 66 => some "Wi-Fi connection failed"
  | 67 => some "Wi-Fi connection successful, error in obtaining IP (DHCP)"
  | 68 => some "Failed to obtain encryption method"
  | 69 => some "The specified AP was not found."
  | 70 => some "Wi-Fi scan start failed"
  | 71 => some "Wi-Fi scan timeout"
  | 72 => some "Failed to enable AP hotspot"
  | 73 => some "Failed to obtain the Wi-Fi information of the router or the AP information that you enabled yourself"
  | 74 => some "The network card (STA/AP) is not running"
  | 75 => some "Wi-Fi country code error (unsupported Wi-Fi country code)"
  | 76 => some "The current network configuration mode is wrong."
  | 95 => some "Wi-Fi connection unknown error"
  | 96 => some "Failed to create socket"
  | 97 => some "Socket connection failed"
  | 98 => some "DNS Failure"
  | 99 => some "The socket status is wrong (for example, TCP is not connected yet)"
  | 100 => some "Socket type error"
  | 101 => some "Socket send failed"
  | 102 => some "Socket receive failed"
  | 103 => some "Socket monitoring thread creation failed"
  | 104 => some "Socket bind error"
  | 105 => some "The current connection cannot be transparently linked (wrong socket type or number)"
  | 106 => some "PING test failed (all packets lost)"
  | 107 => some "Wi-Fi country code error (unsupported Wi-Fi country code)"
  | 108 => some "SSL Config Error"
  | 109 => some "SSL verification error (usually caused by unsupported SSL encryption type or certificate error)"
  | 127 => some "Unknown socket error"
  | _ => none

/-- Go map indexing `errStrings[errCode]`: a missing key yields the zero
value, i.e. the empty string. -/
def lookupErr (c : Int) : String := (errStrings c).getD ""

/-- The driver's `getErrStr`: split the line on `':'`; when there is a
second token that parses as an integer, index the catalog with it,
otherwise keep the sentinel. -/
def getErrStr (errLine : List Nat) : String :=
  let tokens := splitAll 58 errLine
  if 1 < tokens.length then
    match atoi (tokens.getD 1 []) with
    | some c => lookupErr c
    | none => "Can't parse ERROR response"
  else "Can't parse ERROR response"

/-! ### Parser, dispatcher and socket-registry state -/

/-- A logical socket (`type socket`): protocol, device-assigned id,
receive channel contents (`rx`, a buffered channel of byte chunks,
modelled as the FIFO of chunks it currently holds plus a closed flag),
and the partial-read `remainder`.  (`laddr` is irrelevant to the claims
proved here.) -/
structure Sock where
  protocol : Int
  id : List Nat
  rxQueue : List (List Nat)
  rxClosed : Bool
  remainder : List Nat
  deriving Repr, DecidableEq

/-- Parser-facing device state: `buf` is `d.buf[0:d.pos]` (the fixed
1500-byte array holds only `pos` meaningful bytes), `last` is `d.last`,
and `sockets` the socket table. -/
structure Dev where
  buf : List Nat
  last : List Nat
  sockets : List (Option Sock)
  deriving Repr, DecidableEq

/-- Signals the parser can emit on the device's channels: the
ready-to-send marker (`d.txReady`), command success (`d.ok`), and
command failure (`d.err`, carrying the decoded message). -/
inductive Out where
  | txReady
  | okSig
  | errSig (msg : String)
  deriving Repr, DecidableEq

/-- The two-byte line terminator. -/
def crlf : List Nat := [13, 10]

def evtDownTag : List Nat := bytesOf "+EVENT:SocketDown"
def okTag : List Nat := bytesOf "OK"
def errTag : List Nat := bytesOf "ERROR"
def evtTag : List Nat := bytesOf "+EVENT:"
def disconnTag : List Nat := bytesOf "SocketDisconnect"
def seedTag : List Nat := bytesOf "SocketSeed,2,1"

/-- The driver's `findSocket`, returning the index of the first table
entry whose id equals `id`.  Go dereferences every entry unconditionally
(a nil slot reached before a match would fault); the scan is modelled
over occupied slots, which coincides with Go whenever no nil entry is
reached before the match — the case in every scenario below. -/
def findSockAux (id : List Nat) : List (Option Sock) → Nat → Option Nat
  | [], _ => none
  | none :: rest, i => findSockAux id rest (i + 1)
  | some s :: rest, i =>
    if s.id = id then some i else findSockAux id rest (i + 1)

def findSock (tbl : List (Option Sock)) (id : List Nat) : Option Nat :=
  findSockAux id tbl 0

/-- Update the table entry at index `i`. -/
def modifyAt : Nat → (Option Sock → Option Sock) → List (Option Sock) → List (Option Sock)
  | _, _, [] => []
  | 0, f, x :: xs => f x :: xs
  | i + 1, f, x :: xs => x :: modifyAt i f xs

/-- `s.rx <- data`: append a chunk to the rx channel of the socket at
index `i`.  (The Go channel blocks when its 10-chunk buffer is full and
faults when closed; the scenarios proved with this function keep the
channel open and short.) -/
def enqueueAt (tbl : List (Option Sock)) (i : Nat) (c : List Nat) : List (Option Sock) :=
  modifyAt i (fun os => os.map (fun s => { s with rxQueue := s.rxQueue ++ [c] })) tbl

/-- `close(s.rx)` for the socket at index `i`. -/
def closeAt (tbl : List (Option Sock)) (i : Nat) : List (Option Sock) :=
  modifyAt i (fun os => os.map (fun s => { s with rxClosed := true })) tbl

/-- The driver's `split` helper: `bytes.Split` on `del`, then part
`part`, or the "Split parts error" message when out of range. -/
def goSplitPart (resp : List Nat) (part : Nat) (del : Nat) (onMsg : String) : List Nat :=
  (splitAll del resp).getD part (bytesOf ("Split parts error getting " ++ onMsg))

/-- The driver's event `handle`: a `SocketDisconnect,<id>` event closes
the rx channel of the socket found by id; the `SocketSeed,2,1` case
does nothing (its body is commented out in the source). -/
def handle (tbl : List (Option Sock)) (event : List Nat) : List (Option Sock) :=
  if disconnTag <+: event then
    let id := goSplitPart event 1 44 "SocketDisconnect"
    match findSock tbl id with
    | some i => closeAt tbl i
    | none => tbl
  else if seedTag <+: event then tbl
  else tbl

/-- The switch of `processUART` applied to a completed line `sofar`
(terminator already stripped); `d` still carries the unconsumed buffer,
which the SocketDown length-mismatch branch keeps intact. -/
def processLine (d : Dev) (sofar : List Nat) : Dev × List Out :=
  if evtDownTag <+: sofar then
    let parts := splitN 44 4 sofar
    if parts.length ≠ 4 then (⟨[], d.last, d.sockets⟩, [])
    else
      match atoi (parts.getD 2 []) with
      | none => (⟨[], d.last, d.sockets⟩, [])
      | some len =>
        if len ≠ ((parts.getD 3 []).length : Int) then (d, [])
        else
          match findSock d.sockets (parts.getD 1 []) with
          | none => (⟨[], d.last, d.sockets⟩, [])
          | some i => (⟨[], d.last, enqueueAt d.sockets i (parts.getD 3 [])⟩, [])
  else if okTag <+: sofar then (⟨[], d.last, d.sockets⟩, [Out.okSig])
  else if errTag <+: sofar then (⟨[], d.last, d.sockets⟩, [Out.errSig (getErrStr d.last)])
  else if evtTag <+: sofar then
    (⟨[], d.last, handle d.sockets (sofar.drop evtTag.length)⟩, [])
  else (⟨[], if sofar = [] then d.last else sofar, d.sockets⟩, [])

/-- The driver's `processUART`: the single-byte `'>'` marker is
recognized immediately; otherwise a unit is processed only once the
buffer ends in CRLF, with the terminator stripped. -/
def processUART (d : Dev) : Dev × List Out :=
  if d.buf = [62] then (⟨[], d.last, d.sockets⟩, [Out.txReady])
  else if d.buf.drop (d.buf.length - 2) = crlf then
    processLine d (d.buf.take (d.buf.length - 2))
  else (d, [])

/-- One iteration of `serviceUART` for one incoming byte: when the
buffer is full (`pos >= 1500`) the position is reset (the driver prints
"Trying to write past buffer" and breaks; the byte is consumed on the
next pass with `pos = 0`), then the byte is appended and `processUART`
runs. -/
def feedByte (d : Dev) (b : Nat) : Dev × List Out :=
  let d1 : Dev := if 1500 ≤ d.buf.length then ⟨[], d.last, d.sockets⟩ else d
  processUART ⟨d1.buf ++ [b], d1.last, d1.sockets⟩

/-- Feed a byte string one byte at a time, collecting emitted signals. -/
def feed (d : Dev) : List Nat → Dev × List Out
  | [] => (d, [])
  | b :: rest =>
    let r := feedByte d b
    let r2 := feed r.1 rest
    (r2.1, r.2 ++ r2.2)

/-! ### Per-socket receive semantics (`Recv` and channel delivery) -/

/-- Result of one `Recv`: `data bs` returns the bytes `bs` (Go returns
`(bs.length, nil)` after copying them into the caller's buffer), `eofRes`
is `(0, io.EOF)` on a closed drained channel, `blocked` marks the
synchronous wait on an open empty channel. -/
inductive RecvRes where
  | data (bs : List Nat)
  | eofRes
  | blocked
  deriving Repr, DecidableEq

/-- The driver's `Recv` on one socket with a caller buffer of `bufLen`
bytes: drain `remainder` first; otherwise take the next chunk from the
rx channel, keeping the undelivered suffix as the new remainder
(`copy` transfers `min bufLen (length chunk)` bytes, which is
`take bufLen`/`drop bufLen`). -/
def recvSock (s : Sock) (bufLen : Nat) : Sock × RecvRes :=
  if s.remainder ≠ [] then
    ({ s with remainder := s.remainder.drop bufLen }, .data (s.remainder.take bufLen))
  else
    match s.rxQueue with
    | [] => if s.rxClosed then (s, .eofRes) else (s, .blocked)
    | c :: rest =>
      ({ s with rxQueue := rest, remainder := c.drop bufLen }, .data (c.take bufLen))

/-- Channel delivery `s.rx <- data` at the socket level: appends when the
channel is open; a send on a closed Go channel faults, so no chunk is
ever enqueued after close (`none`). -/
def enqSock (s : Sock) (c : List Nat) : Option Sock :=
  if s.rxClosed then none
  else some { s with rxQueue := s.rxQueue ++ [c] }

/-- Operations observable on one socket's receive path: a chunk
delivered by the background reader, a `Recv` with a given caller buffer
size, and the channel close performed by a disconnect event. -/
inductive SockOp where
  | enq (c : List Nat)
  | recvOp (n : Nat)
  | closeOp
  deriving Repr, DecidableEq

def recvBytes : RecvRes → List Nat
  | .data bs => bs
  | .eofRes => []
  | .blocked => []

/-- Run a sequence of socket operations, collecting all bytes `Recv`
returned to callers; `none` when a delivery hits a closed channel. -/
def runOps : Sock → List SockOp → Option (Sock × List Nat)
  | s, [] => some (s, [])
  | s, .enq c :: rest =>
    match enqSock s c with
    | none => none
    | some s2 => runOps s2 rest
  | s, .recvOp n :: rest =>
    let r := recvSock s n
    (runOps r.1 rest).map (fun p => (p.1, recvBytes r.2 ++ p.2))
  | s, .closeOp :: rest => runOps { s with rxClosed := true } rest

/-- All bytes delivered by SocketDown events in a trace, in order. -/
def enqBytes : List SockOp → List Nat
  | [] => []
  | .enq c :: rest => c ++ enqBytes rest
  | .recvOp _ :: rest => enqBytes rest
  | .closeOp :: rest => enqBytes rest

/-! ### Socket table operations (`Socket`, `Close`, `Send`) -/

/-- Modelled from the spec: the generic socket-interface integer
constants and error sentinels (`netdev.AF_INET`, `netdev.SOCK_STREAM`,
...) whose defining file is not under src/ (only callers are).  The
driver only compares them for equality, so any distinct values are
faithful. -/
def AF_INET : Int := 2
def SOCK_STREAM : Int := 1
def SOCK_DGRAM : Int := 2
def IPPROTO_TCP : Int := 6
def IPPROTO_UDP : Int := 17
def IPPROTO_TLS : Int := 282

/-- Modelled from the spec: the sentinel error values consumed from the
generic socket interface, plus device-reported and timeout failures
produced by the correlator. -/
inductive NetErr where
  | invalidSocketFd
  | noMoreSockets
  | familyNotSupported
  | protocolNotSupported
  | devErr (msg : String)
  | timedOut
  deriving Repr, DecidableEq

/-- The driver's `getSocket`: descriptor range check, then the slot,
`none` standing for `ErrInvalidSocketFd` on both failure paths. -/
def getSock (tbl : List (Option Sock)) (fd : Int) : Option Sock :=
  if fd < 0 ∨ (tbl.length : Int) < fd + 1 then none
  else tbl.getD fd.toNat none

/-- The driver's `Close`: look the socket up; when its id is non-empty,
issue `AT+SOCKETDEL=<id>` whose outcome is `execOutcome` (the correlator
result: `none` = OK), returning that error *without freeing the slot*
when it fails; free the slot otherwise.  Returns the new table, the
commands written, and the result. -/
def closeSock (tbl : List (Option Sock)) (fd : Int) (execOutcome : Option NetErr) :
    List (Option Sock) × List (List Nat) × Option NetErr :=
  match getSock tbl fd with
  | none => (tbl, [], some .invalidSocketFd)
  | some s =>
    if s.id ≠ [] then
      match execOutcome with
      | some e => (tbl, [bytesOf "AT+SOCKETDEL=" ++ s.id], some e)
      | none => (tbl.set fd.toNat none, [bytesOf "AT+SOCKETDEL=" ++ s.id], none)
    else (tbl.set fd.toNat none, [], none)

/-- A freshly allocated socket: empty id, fresh empty rx channel. -/
def newSock (protocol : Int) : Sock := ⟨protocol, [], [], false, []⟩

/-- Index of the first empty (nil) slot, exactly the scan in `Socket`. -/
def findNil : List (Option Sock) → Option Nat
  | [] => none
  | none :: _ => some 0
  | some _ :: rest => (findNil rest).map (· + 1)

/-- The supported (protocol, type) pairs, in the source's switch. -/
def pairOK (protocol stype : Int) : Prop :=
  (protocol = IPPROTO_TCP ∧ stype = SOCK_STREAM) ∨
  (protocol = IPPROTO_TLS ∧ stype = SOCK_STREAM) ∨
  (protocol = IPPROTO_UDP ∧ stype = SOCK_DGRAM)

instance (protocol stype : Int) : Decidable (pairOK protocol stype) := by
  unfold pairOK; infer_instance

/-- The driver's `Socket`: validate domain and (type, protocol), then
take the lowest-index empty slot; with none left, fail with
"no more sockets" (`fd = -1`). -/
def socketOp (tbl : List (Option Sock)) (domain stype protocol : Int) :
    List (Option Sock) × Int × Option NetErr :=
  if domain ≠ AF_INET then (tbl, -1, some .familyNotSupported)
  else if ¬ pairOK protocol stype then (tbl, -1, some .protocolNotSupported)
  else
    match findNil tbl with
    | some fd => (tbl.set fd (some (newSock protocol)), (fd : Int), none)
    | none => (tbl, -1, some .noMoreSockets)

/-- `Socket()` called `n` times with valid arguments, collecting the
(descriptor, error) results in order. -/
def allocN : List (Option Sock) → Nat → List (Option Sock) × List (Int × Option NetErr)
  | tbl, 0 => (tbl, [])
  | tbl, n + 1 =>
    let r := socketOp tbl AF_INET SOCK_STREAM IPPROTO_TCP
    let rest := allocN r.1 n
    (rest.1, (r.2.1, r.2.2) :: rest.2)

/-! ### Send -/

/-- Outcome of one bounded wait inside `send`/`Send`: the awaited signal
(ready-to-send marker, or OK), the ticker firing, or the error channel
firing with a decoded message. -/
inductive WaitRes where
  | signal
  | timeoutFired
  | errFired (msg : String)
  deriving Repr, DecidableEq

/-- Transport/device behavior during one `Send`: the UART write results
and which signal wins each of the two waits. -/
structure SendEnv where
  cmdWriteErr : Option NetErr
  ready : WaitRes
  bufWriteErr : Option NetErr
  final : WaitRes
  deriving Repr, DecidableEq

/-- Observable actions `Send` performs on the shared transport. -/
inductive SendAct where
  | writeBytes (bs : List Nat)
  | waitReady (timeoutMs : Nat)
  | waitOutcome (timeoutMs : Nat)
  deriving Repr, DecidableEq

/-- `fmt.Sprintf("AT+SOCKETSEND=%s,%d", s.id, len(buf))`. -/
def sendCmd (id : List Nat) (n : Nat) : List Nat :=
  bytesOf "AT+SOCKETSEND=" ++ id ++ bytesOf "," ++ bytesOf (toString n)

/-- The driver's `Send`: look the socket up, stage the transfer with
`send(cmd, 1000)` (write the command line, wait for the `>` marker with
a fixed 1000 ms ticker), write the payload, then wait for OK/ERROR with
a second fixed 1000 ms ticker.  The `deadline` parameter is carried but
never consulted, exactly as in the source. -/
def sendOp (tbl : List (Option Sock)) (fd : Int) (buf : List Nat) (flags : Int)
    (deadline : Int) (env : SendEnv) : (Int × Option NetErr) × List SendAct :=
  match getSock tbl fd with
  | none => ((0, some .invalidSocketFd), [])
  | some s =>
    let cmd := sendCmd s.id buf.length
    match env.cmdWriteErr with
    | some e => ((0, some e), [.writeBytes (cmd ++ crlf)])
    | none =>
      match env.ready with
      | .timeoutFired => ((0, some .timedOut), [.writeBytes (cmd ++ crlf), .waitReady 1000])
      | .errFired m =>
        ((0, some (.devErr m)), [.writeBytes (cmd ++ crlf), .waitReady 1000])
      | .signal =>
        match env.bufWriteErr with
        | some e =>
          ((0, some e), [.writeBytes (cmd ++ crlf), .waitReady 1000, .writeBytes buf])
        | none =>
          match env.final with
          | .timeoutFired =>
            ((0, some .timedOut),
              [.writeBytes (cmd ++ crlf), .waitReady 1000, .writeBytes buf, .waitOutcome 1000])
          | .errFired m =>
            ((0, some (.devErr m)),
              [.writeBytes (cmd ++ crlf), .waitReady 1000, .writeBytes buf, .waitOutcome 1000])
          | .signal =>
            (((buf.length : Int), none),
              [.writeBytes (cmd ++ crlf), .waitReady 1000, .writeBytes buf, .waitOutcome 1000])

/-! ### Concrete fixtures used by witnesses and counterexamples -/

/-- A TCP socket already connected with device id `"3"`. -/
def sock3 : Sock := ⟨IPPROTO_TCP, bytesOf "3", [], false, []⟩

/-- Device with `sock3` in slot 0, empty parse buffer. -/
def dev3 : Dev := ⟨[], [], [some sock3, none, none, none, none, none, none, none]⟩

/-- Device whose parse buffer is full (1500 bytes, no unit recognized). -/
def devFull : Dev := ⟨List.replicate 1500 65, [], []⟩

/-- An 8-slot table with a connected socket (id "5") in slot 0. -/
def tbl5 : List (Option Sock) :=
  [some ⟨IPPROTO_TCP, bytesOf "5", [], false, []⟩, none, none, none, none, none, none, none]

/-- The empty 8-slot table. -/
def tbl0 : List (Option Sock) := List.replicate 8 none

/-- A socket whose channel was closed by a disconnect while one chunk
was still buffered. -/
def sockPend : Sock := ⟨IPPROTO_TCP, bytesOf "3", [bytesOf "xy"], false, []⟩

def sockPendClosed : Sock := ⟨IPPROTO_TCP, bytesOf "3", [bytesOf "xy"], true, []⟩

/-- A sample receive trace: two deliveries interleaved with reads whose
buffers are smaller, equal and larger than the pending data. -/
def opsW : List SockOp :=
  [.enq (bytesOf "abcd"), .recvOp 2, .recvOp 1, .enq (bytesOf "ef"),
   .recvOp 5, .recvOp 5]

/-- The 8-slot table with every slot occupied by a fresh TCP socket. -/
def tblFull : List (Option Sock) := List.replicate 8 (some (newSock IPPROTO_TCP))

/-- A socket with a partial-read remainder and a newer queued chunk. -/
def sockRem : Sock := ⟨IPPROTO_TCP, bytesOf "3", [bytesOf "zz"], false, bytesOf "cd"⟩

/-! ## Theorems -/

/-! ### Helper lemmas -/

lemma evtDownTag_eq :
    evtDownTag = [43, 69, 86, 69, 78, 84, 58, 83, 111, 99, 107, 101, 116, 68, 111, 119, 110] :=
  rfl

lemma okTag_eq : okTag = [79, 75] := rfl

lemma errTag_eq : errTag = [69, 82, 82, 79, 82] := rfl

lemma evtTag_eq : evtTag = [43, 69, 86, 69, 78, 84, 58] := rfl

/-- A complete CRLF-terminated buffer is processed by `processLine` on
the stripped content. -/
lemma processUART_line (d : Dev) (content : List Nat) (h : d.buf = content ++ crlf) :
    processUART d = processLine d content := by
  unfold processUART
  rw [h]
  have h62 : ¬(content ++ crlf = [62]) := by
    intro hh
    have := congrArg List.length hh
    simp [crlf] at this
  rw [if_neg h62]
  have hlen : (content ++ crlf).length - 2 = content.length := by simp [crlf]
  rw [hlen, List.drop_left, List.take_left, if_pos rfl]

lemma exists_four {α : Type} {l : List α} (h : l.length = 4) :
    ∃ a b c d, l = [a, b, c, d] := by
  match l with
  | [a, b, c, d] => exact ⟨a, b, c, d, rfl⟩
  | [] | [_] | [_, _] | [_, _, _] => simp at h
  | _ :: _ :: _ :: _ :: _ :: _ :: _ => simp at h

lemma not_down_of_ok {c : List Nat} (h : okTag <+: c) : ¬ evtDownTag <+: c := by
  obtain ⟨t, rfl⟩ := h
  rw [okTag_eq, evtDownTag_eq]
  intro hd
  exact absurd (List.cons_prefix_cons.mp hd).1 (by decide)

lemma not_down_of_err {c : List Nat} (h : errTag <+: c) : ¬ evtDownTag <+: c := by
  obtain ⟨t, rfl⟩ := h
  rw [errTag_eq, evtDownTag_eq]
  intro hd
  exact absurd (List.cons_prefix_cons.mp hd).1 (by decide)

lemma not_ok_of_err {c : List Nat} (h : errTag <+: c) : ¬ okTag <+: c := by
  obtain ⟨t, rfl⟩ := h
  rw [errTag_eq, okTag_eq]
  intro hd
  exact absurd (List.cons_prefix_cons.mp hd).1 (by decide)

/-! ### Claim theorems -/

set_option maxRecDepth 8192 in
/-- C1: the SocketDown unit is finalized exactly when the 4th
comma-separated field's byte length equals the declared length: on a
mismatch the parser keeps accumulating (state untouched, nothing
delivered); on a match it resets the buffer and delivers the 4th field
to the socket found by id; and concretely, feeding
`+EVENT:SocketDown,3,8,ab\r\ncdef\r\n` does not finalize at the embedded
CRLF and delivers the single 8-byte chunk `ab\r\ncdef` to socket "3". -/
theorem socketDown_framing :
    (∀ (d : Dev) (content : List Nat) (L : Int),
      d.buf = content ++ crlf →
      evtDownTag <+: content →
      (splitN 44 4 content).length = 4 →
      atoi ((splitN 44 4 content).getD 2 []) = some L →
      L ≠ (((splitN 44 4 content).getD 3 []).length : Int) →
      processUART d = (d, [])) ∧
    (∀ (d : Dev) (content : List Nat) (i : Nat),
      d.buf = content ++ crlf →
      evtDownTag <+: content →
      (splitN 44 4 content).length = 4 →
      atoi ((splitN 44 4 content).getD 2 []) =
        some (((splitN 44 4 content).getD 3 []).length : Int) →
      findSock d.sockets ((splitN 44 4 content).getD 1 []) = some i →
      processUART d =
        (⟨[], d.last, enqueueAt d.sockets i ((splitN 44 4 content).getD 3 [])⟩, [])) ∧
    feed dev3 (bytesOf "+EVENT:SocketDown,3,8,ab\r\n") =
      (⟨bytesOf "+EVENT:SocketDown,3,8,ab\r\n", [], dev3.sockets⟩, []) ∧
    feed dev3 (bytesOf "+EVENT:SocketDown,3,8,ab\r\ncdef\r\n") =
      (⟨[], [],
        [some ⟨IPPROTO_TCP, bytesOf "3", [bytesOf "ab\r\ncdef"], false, []⟩,
         none, none, none, none, none, none, none]⟩, []) := by
  refine ⟨?_, ?_, ?_, ?_⟩
  · intro d content L hbuf hdown hparts hatoi hne
    obtain ⟨p0, p1, p2, p3, hp⟩ := exists_four hparts
    rw [hp] at hatoi hne
    simp only [List.getD_cons_succ, List.getD_cons_zero] at hatoi hne
    rw [processUART_line d content hbuf]
    simp [processLine, hdown, hp, hatoi, hne]
  · intro d content i hbuf hdown hparts hatoi hfind
    obtain ⟨p0, p1, p2, p3, hp⟩ := exists_four hparts
    rw [hp] at hatoi hfind
    simp only [List.getD_cons_succ, List.getD_cons_zero] at hatoi hfind
    rw [processUART_line d content hbuf]
    simp [processLine, hdown, hp, hatoi, hfind]
  · decide
  · decide

/-- Witness for `socketDown_framing`: its general mismatch and finalize
parts applied to the two concrete parse states reached while feeding
`+EVENT:SocketDown,3,8,ab\r\ncdef\r\n`. -/
theorem socketDown_framing_witness :
    processUART ⟨bytesOf "+EVENT:SocketDown,3,8,ab" ++ crlf, [], dev3.sockets⟩ =
      (⟨bytesOf "+EVENT:SocketDown,3,8,ab" ++ crlf, [], dev3.sockets⟩, []) ∧
    processUART ⟨bytesOf "+EVENT:SocketDown,3,8,ab\r\ncdef" ++ crlf, [], dev3.sockets⟩ =
      (⟨[], [], enqueueAt dev3.sockets 0 (bytesOf "ab\r\ncdef")⟩, []) := by
  constructor
  · exact socketDown_framing.1 _ (bytesOf "+EVENT:SocketDown,3,8,ab") 8 rfl
      (by decide) (by decide) (by decide) (by decide)
  · exact socketDown_framing.2.1 _ (bytesOf "+EVENT:SocketDown,3,8,ab\r\ncdef") 0 rfl
      (by decide) (by decide) (by decide) (by decide)

/-- C9: terminal-marker recognition is by prefix: every completed line
whose content begins with `OK` emits the success signal and leaves
`lastLine` untouched; every line beginning with `ERROR` emits the
failure signal; and a line matching none of the recognized prefixes
becomes the new `lastLine`. -/
theorem terminal_markers_by_prefix :
    (∀ (d : Dev) (content : List Nat),
      d.buf = content ++ crlf → okTag <+: content →
      processUART d = (⟨[], d.last, d.sockets⟩, [Out.okSig])) ∧
    (∀ (d : Dev) (content : List Nat),
      d.buf = content ++ crlf → errTag <+: content →
      processUART d = (⟨[], d.last, d.sockets⟩, [Out.errSig (getErrStr d.last)])) ∧
    (∀ (d : Dev) (content : List Nat),
      d.buf = content ++ crlf → content ≠ [] →
      ¬ evtDownTag <+: content → ¬ okTag <+: content →
      ¬ errTag <+: content → ¬ evtTag <+: content →
      processUART d = (⟨[], content, d.sockets⟩, [])) := by
  refine ⟨?_, ?_, ?_⟩
  · intro d content hbuf hok
    rw [processUART_line d content hbuf]
    simp [processLine, not_down_of_ok hok, hok]
  · intro d content hbuf herr
    rw [processUART_line d content hbuf]
    simp [processLine, not_down_of_err herr, not_ok_of_err herr, herr]
  · intro d content hbuf hne hdown hok herr hevt
    rw [processUART_line d content hbuf]
    simp [processLine, hdown, hok, herr, hevt, hne]

/-- Witness for `terminal_markers_by_prefix`: the line `OK123` signals
success without touching `lastLine`, `ERROR:105` signals failure, and
`+SOCKET=4` becomes the new `lastLine`. -/
theorem terminal_markers_by_prefix_witness :
    processUART ⟨bytesOf "OK123" ++ crlf, bytesOf "x", []⟩ =
      (⟨[], bytesOf "x", []⟩, [Out.okSig]) ∧
    processUART ⟨bytesOf "ERROR:105" ++ crlf, bytesOf "x", []⟩ =
      (⟨[], bytesOf "x", []⟩, [Out.errSig (getErrStr (bytesOf "x"))]) ∧
    processUART ⟨bytesOf "+SOCKET=4" ++ crlf, bytesOf "x", []⟩ =
      (⟨[], bytesOf "+SOCKET=4", []⟩, []) := by
  refine ⟨?_, ?_, ?_⟩
  · exact terminal_markers_by_prefix.1 _ (bytesOf "OK123") rfl (by decide)
  · exact terminal_markers_by_prefix.2.1 _ (bytesOf "ERROR:105") rfl (by decide)
  · exact terminal_markers_by_prefix.2.2 _ (bytesOf "+SOCKET=4") rfl (by decide)
      (by decide) (by decide) (by decide) (by decide)

/-- C4 counterexample: decoding `ERROR:105` yields the catalog string for
code 105, but that string is the transparent-link error, not
"Socket bind error" (which is code 104). -/
theorem decode105_not_bind :
    getErrStr (bytesOf "ERROR:105") =
      "The current connection cannot be transparently linked (wrong socket type or number)" ∧
    getErrStr (bytesOf "ERROR:105") ≠ "Socket bind error" := by
  constructor
  · rfl
  · decide

/-- C4 (amended): decoding the error line `ERROR:105` yields the catalog
string for code 105, which is the transparent-link message; the string
"Socket bind error" is the catalog entry for code 104. -/
theorem decode105_catalog :
    getErrStr (bytesOf "ERROR:105") =
      "The current connection cannot be transparently linked (wrong socket type or number)" ∧
    errStrings 105 =
      some "The current connection cannot be transparently linked (wrong socket type or number)" ∧
    errStrings 104 = some "Socket bind error" := by
  exact ⟨rfl, rfl, rfl⟩

/-- C5 counterexample: code 6 is absent from the catalog, yet decoding
`ERROR:6` yields the empty string, not an "unknown error" sentinel. -/
theorem decode_unmapped_empty :
    errStrings 6 = none ∧ getErrStr (bytesOf "ERROR:6") = "" := by
  exact ⟨rfl, rfl⟩

/-- C5 (amended): for every integer code absent from the catalog, the map
index used by `getErrStr` yields the empty string (the Go zero value),
overwriting the parse sentinel; concretely `ERROR:6` decodes to `""`. -/
theorem decode_unmapped_is_empty :
    (∀ c : Int, errStrings c = none → lookupErr c = "") ∧
    getErrStr (bytesOf "ERROR:6") = "" := by
  constructor
  · intro c h
    simp [lookupErr, h]
  · rfl

/-- Witness for `decode_unmapped_is_empty` at code 6. -/
theorem decode_unmapped_is_empty_witness : lookupErr 6 = "" :=
  decode_unmapped_is_empty.1 6 rfl


/-- One `Recv` step never loses or duplicates bytes: what it returns,
plus the new remainder and queue, re-concatenates to the old remainder
and queue. -/
lemma recv_preserve (s : Sock) (n : Nat) :
    recvBytes (recvSock s n).2 ++ (recvSock s n).1.remainder ++
      (recvSock s n).1.rxQueue.join =
    s.remainder ++ s.rxQueue.join := by
  unfold recvSock
  by_cases hrem : s.remainder = []
  · simp only [hrem, ne_eq, not_true_eq_false, if_false]
    cases hq : s.rxQueue with
    | nil =>
      by_cases hc : s.rxClosed <;> simp [hc, recvBytes, hrem, hq]
    | cons c rest =>
      simp [recvBytes, hrem, ← List.append_assoc, List.take_append_drop]
  · simp [hrem, recvBytes, ← List.append_assoc, List.take_append_drop]

/-- C2: over any successful trace of deliveries, reads and closes, the
bytes `Recv` returned, plus the remainder and unread queued chunks,
are exactly the initial backlog plus every byte delivered — nothing
dropped, nothing duplicated; and whenever the remainder is non-empty,
`Recv` serves (a prefix of) it and leaves the queue untouched, so a
split chunk is drained before any newer chunk. -/
theorem recv_conserves_bytes :
    (∀ (ops : List SockOp) (s0 s : Sock) (out : List Nat),
      runOps s0 ops = some (s, out) →
      out ++ s.remainder ++ s.rxQueue.join =
        s0.remainder ++ s0.rxQueue.join ++ enqBytes ops) ∧
    (∀ (s : Sock) (n : Nat), s.remainder ≠ [] →
      (recvSock s n).2 = .data (s.remainder.take n) ∧
      (recvSock s n).1.rxQueue = s.rxQueue ∧
      (recvSock s n).1.remainder = s.remainder.drop n) := by
  constructor
  · intro ops
    induction ops with
    | nil =>
      intro s0 s out h
      simp [runOps] at h
      obtain ⟨h1, h2⟩ := h
      subst h1; subst h2
      simp [enqBytes]
    | cons op rest ih =>
      intro s0 s out h
      cases op with
      | enq c =>
        simp only [runOps] at h
        cases hE : enqSock s0 c with
        | none => rw [hE] at h; simp at h
        | some s2 =>
          rw [hE] at h
          have hrec := ih s2 s out h
          unfold enqSock at hE
          by_cases hc : s0.rxClosed
          · simp [hc] at hE
          · simp [hc] at hE
            rw [hrec, ← hE]
            simp [enqBytes, List.join_append]
      | recvOp n =>
        simp only [runOps] at h
        cases hR : runOps (recvSock s0 n).1 rest with
        | none => rw [hR] at h; simp at h
        | some p =>
          rw [hR] at h
          have h2 : (p.1, recvBytes (recvSock s0 n).2 ++ p.2) = (s, out) :=
            Option.some.inj h
          have hs : p.1 = s := congrArg Prod.fst h2
          have hout : recvBytes (recvSock s0 n).2 ++ p.2 = out := congrArg Prod.snd h2
          have hrec := ih (recvSock s0 n).1 p.1 p.2 hR
          rw [← hout, hs] at *
          calc (recvBytes (recvSock s0 n).2 ++ p.2) ++ s.remainder ++ s.rxQueue.join
              = recvBytes (recvSock s0 n).2 ++
                  (p.2 ++ s.remainder ++ s.rxQueue.join) := by
                simp [List.append_assoc]
            _ = recvBytes (recvSock s0 n).2 ++
                  ((recvSock s0 n).1.remainder ++ (recvSock s0 n).1.rxQueue.join ++
                    enqBytes rest) := by rw [← hs] at hrec ⊢; rw [hrec]
            _ = (recvBytes (recvSock s0 n).2 ++ (recvSock s0 n).1.remainder ++
                  (recvSock s0 n).1.rxQueue.join) ++ enqBytes rest := by
                simp [List.append_assoc]
            _ = (s0.remainder ++ s0.rxQueue.join) ++ enqBytes rest := by
                rw [recv_preserve]
            _ = s0.remainder ++ s0.rxQueue.join ++ enqBytes (SockOp.recvOp n :: rest) := by
                simp [enqBytes, List.append_assoc]
      | closeOp =>
        simp only [runOps] at h
        have hrec := ih _ s out h
        simpa [enqBytes] using hrec
  · intro s n hrem
    refine ⟨?_, ?_, ?_⟩ <;> simp [recvSock, hrem]

/-- Witness for `recv_conserves_bytes`: the trace `opsW` from a fresh
socket returns exactly the six delivered bytes. -/
theorem recv_conserves_bytes_witness :
    bytesOf "abcdef" ++ (newSock IPPROTO_TCP).remainder ++
        (newSock IPPROTO_TCP).rxQueue.join =
      (newSock IPPROTO_TCP).remainder ++ (newSock IPPROTO_TCP).rxQueue.join ++
        enqBytes opsW ∧
    (recvSock sockRem 1).2 = .data ((bytesOf "cd").take 1) :=
  ⟨recv_conserves_bytes.1 opsW (newSock IPPROTO_TCP) (newSock IPPROTO_TCP)
      (bytesOf "abcdef") (by decide),
   (recv_conserves_bytes.2 sockRem 1 (by decide)).1⟩

/-- C7 counterexample: a disconnect closes the channel while a chunk is
still buffered; the next `Recv` with an empty remainder then returns
that chunk, not end-of-stream. -/
theorem disconnect_recv_counterexample :
    handle [some sockPend] (bytesOf "SocketDisconnect,3") = [some sockPendClosed] ∧
    sockPendClosed.rxClosed = true ∧ sockPendClosed.remainder = [] ∧
    recvSock sockPendClosed 2 =
      (⟨IPPROTO_TCP, bytesOf "3", [], true, []⟩, .data (bytesOf "xy")) ∧
    RecvRes.data (bytesOf "xy") ≠ .eofRes := by
  decide

/-- C7 (amended): handling `SocketDisconnect,<id>` closes the rx channel
of the socket found by that id; the close is terminal — a delivery to a
closed channel never enqueues (the Go send would fault) — and every
subsequent `Recv` finding an empty remainder *and a drained queue*
returns end-of-stream, never a failure; chunks already buffered at close
time are still returned first. -/
theorem disconnect_closes_queue :
    (∀ (tbl : List (Option Sock)) (event : List Nat) (i : Nat),
      disconnTag <+: event →
      findSock tbl (goSplitPart event 1 44 "SocketDisconnect") = some i →
      handle tbl event = closeAt tbl i) ∧
    (∀ (s : Sock) (c : List Nat), s.rxClosed = true → enqSock s c = none) ∧
    (∀ (s : Sock) (n : Nat), s.rxClosed = true → s.remainder = [] →
      s.rxQueue = [] → recvSock s n = (s, .eofRes)) := by
  refine ⟨?_, ?_, ?_⟩
  · intro tbl event i hpre hfind
    simp [handle, hpre, hfind]
  · intro s c h
    simp [enqSock, h]
  · intro s n h hrem hq
    simp [recvSock, hrem, hq, h]

/-- Witness for `disconnect_closes_queue` on a one-socket table and a
closed, drained socket. -/
theorem disconnect_closes_queue_witness :
    handle [some sockPend] (bytesOf "SocketDisconnect,3") =
      closeAt [some sockPend] 0 ∧
    enqSock sockPendClosed (bytesOf "zz") = none ∧
    recvSock (⟨IPPROTO_TCP, bytesOf "3", [], true, []⟩ : Sock) 5 =
      (⟨IPPROTO_TCP, bytesOf "3", [], true, []⟩, .eofRes) :=
  ⟨disconnect_closes_queue.1 [some sockPend] (bytesOf "SocketDisconnect,3") 0
      (by decide) (by decide),
   disconnect_closes_queue.2.1 sockPendClosed (bytesOf "zz") (by decide),
   disconnect_closes_queue.2.2 ⟨IPPROTO_TCP, bytesOf "3", [], true, []⟩ 5
      rfl rfl rfl⟩

/-- C3 counterexample: when the delete command fails, `Close` returns the
failure but leaves the slot occupied — the descriptor is not reusable. -/
theorem close_fail_keeps_slot :
    closeSock tbl5 0 (some .timedOut) =
      (tbl5, [bytesOf "AT+SOCKETDEL=5"], some .timedOut) ∧
    tbl5.getD 0 none ≠ none := by
  decide

/-- C3 (amended): `Close` issues `AT+SOCKETDEL=<id>` iff the socket's id
is non-empty and propagates its failure, but frees the slot only when no
error is returned (empty id, or delete succeeded); on a delete failure
the slot stays occupied. -/
theorem close_frees_iff_success :
    (∀ (tbl : List (Option Sock)) (fd : Int) (s : Sock) (e : NetErr),
      getSock tbl fd = some s → s.id ≠ [] →
      closeSock tbl fd (some e) =
        (tbl, [bytesOf "AT+SOCKETDEL=" ++ s.id], some e)) ∧
    (∀ (tbl : List (Option Sock)) (fd : Int) (s : Sock),
      getSock tbl fd = some s → s.id ≠ [] →
      closeSock tbl fd none =
        (tbl.set fd.toNat none, [bytesOf "AT+SOCKETDEL=" ++ s.id], none)) ∧
    (∀ (tbl : List (Option Sock)) (fd : Int) (s : Sock) (oc : Option NetErr),
      getSock tbl fd = some s → s.id = [] →
      closeSock tbl fd oc = (tbl.set fd.toNat none, [], none)) := by
  refine ⟨?_, ?_, ?_⟩
  · intro tbl fd s e hget hid
    simp [closeSock, hget, hid]
  · intro tbl fd s hget hid
    simp [closeSock, hget, hid]
  · intro tbl fd s oc hget hid
    simp [closeSock, hget, hid]

/-- Witness for `close_frees_iff_success` on `tbl5`: a failing delete
propagates without freeing, a successful one frees slot 0. -/
theorem close_frees_iff_success_witness :
    closeSock tbl5 0 (some (.devErr "x")) =
      (tbl5, [bytesOf "AT+SOCKETDEL=" ++ bytesOf "5"], some (.devErr "x")) ∧
    closeSock tbl5 0 none =
      (tbl5.set 0 none, [bytesOf "AT+SOCKETDEL=" ++ bytesOf "5"], none) :=
  ⟨close_frees_iff_success.1 tbl5 0 ⟨IPPROTO_TCP, bytesOf "5", [], false, []⟩
      (.devErr "x") (by decide) (by decide),
   close_frees_iff_success.2.1 tbl5 0 ⟨IPPROTO_TCP, bytesOf "5", [], false, []⟩
      (by decide) (by decide)⟩

lemma devFull_len : devFull.buf.length = 1500 := by
  rw [show devFull.buf = List.replicate 1500 65 from rfl, List.length_replicate]

/-- C6 counterexample: with the 1500-byte buffer full and no unit
recognized, the next byte resets the position — but no signal of any
kind is emitted: the overflow is reported to no outstanding command
(the driver only prints a console message), so a waiting `execute` or
`send` can only time out. -/
theorem overflow_silent_reset :
    feedByte devFull 66 = (⟨[66], [], []⟩, []) := by
  have hfull : (1500 : Nat) ≤ devFull.buf.length := by
    rw [devFull_len]
  simp only [feedByte]
  rw [if_pos hfull]
  decide

/-- C6 (amended): whenever the parse buffer is full (1500 bytes) and no
unit was recognized, feeding the next (non-marker) byte discards the
buffered content and restarts at position 0 with that byte — and the
emitted signal list is empty, so no framing error reaches a waiting
command. -/
theorem overflow_resets_silently :
    (∀ (d : Dev) (b : Nat), 1500 ≤ d.buf.length → b ≠ 62 →
      feedByte d b = (⟨[b], d.last, d.sockets⟩, [])) ∧
    feedByte devFull 66 = (⟨[66], [], []⟩, []) := by
  constructor
  · intro d b hfull hb
    simp [feedByte, processUART, crlf, hfull, hb]
  · have hfull : (1500 : Nat) ≤ devFull.buf.length := by
      rw [devFull_len]
    simp only [feedByte]
    rw [if_pos hfull]
    decide

/-- Witness for `overflow_resets_silently` on the full buffer. -/
theorem overflow_resets_silently_witness :
    feedByte devFull 66 = (⟨[66], devFull.last, devFull.sockets⟩, []) :=
  overflow_resets_silently.1 devFull 66 (by rw [devFull_len]) (by decide)

/-- The first nil slot returned by the `Socket` scan is the lowest one:
it is empty and every lower-index slot is occupied. -/
lemma findNil_spec :
    ∀ (tbl : List (Option Sock)) (i : Nat), findNil tbl = some i →
      tbl[i]? = some none ∧ ∀ k, k < i → tbl[k]? ≠ some none := by
  intro tbl
  induction tbl with
  | nil => intro i h; simp [findNil] at h
  | cons x rest ih =>
    intro i h
    cases x with
    | none =>
      have hi : i = 0 := (Option.some.inj h).symm
      subst hi
      exact ⟨by simp, by intro k hk; omega⟩
    | some s =>
      unfold findNil at h
      cases hf : findNil rest with
      | none => rw [hf] at h; simp at h
      | some j =>
        rw [hf] at h
        have hij : j + 1 = i := Option.some.inj h
        subst hij
        obtain ⟨h1, h2⟩ := ih j hf
        refine ⟨by simpa using h1, ?_⟩
        intro k hk
        cases k with
        | zero => simp
        | succ k2 =>
          have := h2 k2 (by omega)
          simpa using this

set_option maxRecDepth 8192 in
/-- C8: with valid arguments, `Socket()` allocates the lowest-index empty
slot and returns it as the descriptor; when all slots are occupied it
fails with "no more sockets" and leaves the table unchanged; and nine
calls from the empty 8-slot table yield descriptors 0..7 and then the
failure, with all 8 sockets still open. -/
theorem socket_lowest_slot :
    (∀ (tbl : List (Option Sock)) (domain stype protocol : Int),
      domain = AF_INET → pairOK protocol stype → findNil tbl = none →
      socketOp tbl domain stype protocol = (tbl, -1, some .noMoreSockets)) ∧
    (∀ (tbl : List (Option Sock)) (domain stype protocol : Int) (i : Nat),
      domain = AF_INET → pairOK protocol stype → findNil tbl = some i →
      socketOp tbl domain stype protocol =
        (tbl.set i (some (newSock protocol)), (i : Int), none) ∧
      tbl[i]? = some none ∧ ∀ k, k < i → tbl[k]? ≠ some none) ∧
    (allocN tbl0 9).2 =
      [(0, none), (1, none), (2, none), (3, none), (4, none), (5, none),
       (6, none), (7, none), (-1, some .noMoreSockets)] ∧
    (allocN tbl0 9).1 = tblFull := by
  refine ⟨?_, ?_, ?_, ?_⟩
  · intro tbl domain stype protocol hd hp hf
    simp [socketOp, hd, hp, hf]
  · intro tbl domain stype protocol i hd hp hf
    exact ⟨by simp [socketOp, hd, hp, hf],
           (findNil_spec tbl i hf).1, (findNil_spec tbl i hf).2⟩
  · decide
  · decide

/-- Witness for `socket_lowest_slot`: the full table rejects a further
`Socket()`, and `tbl5` (slot 0 occupied) allocates slot 1. -/
theorem socket_lowest_slot_witness :
    socketOp tblFull AF_INET SOCK_STREAM IPPROTO_TCP =
      (tblFull, -1, some .noMoreSockets) ∧
    socketOp tbl5 AF_INET SOCK_STREAM IPPROTO_TCP =
      (tbl5.set 1 (some (newSock IPPROTO_TCP)), 1, none) :=
  ⟨socket_lowest_slot.1 tblFull AF_INET SOCK_STREAM IPPROTO_TCP rfl
      (Or.inl ⟨rfl, rfl⟩) (by decide),
   (socket_lowest_slot.2.1 tbl5 AF_INET SOCK_STREAM IPPROTO_TCP 1 rfl
      (Or.inl ⟨rfl, rfl⟩) (by decide)).1⟩

/-- C10: `Send` never consults its deadline argument — for any two
deadlines, the same state and transport behavior produce exactly the
same writes, waits and result — and both bounded waits it performs (the
ready-to-send wait inside `send` and the final OK/ERROR confirmation)
use the fixed 1000 ms timeout. -/
theorem send_ignores_deadline :
    (∀ (tbl : List (Option Sock)) (fd : Int) (buf : List Nat)
      (flags d1 d2 : Int) (env : SendEnv),
      sendOp tbl fd buf flags d1 env = sendOp tbl fd buf flags d2 env) ∧
    (∀ (tbl : List (Option Sock)) (fd : Int) (buf : List Nat)
      (flags dl : Int) (env : SendEnv) (t : Nat),
      SendAct.waitReady t ∈ (sendOp tbl fd buf flags dl env).2 → t = 1000) ∧
    (∀ (tbl : List (Option Sock)) (fd : Int) (buf : List Nat)
      (flags dl : Int) (env : SendEnv) (t : Nat),
      SendAct.waitOutcome t ∈ (sendOp tbl fd buf flags dl env).2 → t = 1000) := by
  refine ⟨?_, ?_, ?_⟩
  · intro tbl fd buf flags d1 d2 env
    rfl
  · intro tbl fd buf flags dl env t h
    unfold sendOp at h
    rcases hg : getSock tbl fd with _ | s <;> rw [hg] at h
    · simp at h
    · rcases env with ⟨cw, rd, bw, fin⟩
      rcases cw with _ | e <;> rcases rd with _ | _ | m <;>
        rcases bw with _ | e2 <;> rcases fin with _ | _ | m2 <;> simp_all
  · intro tbl fd buf flags dl env t h
    unfold sendOp at h
    rcases hg : getSock tbl fd with _ | s <;> rw [hg] at h
    · simp at h
    · rcases env with ⟨cw, rd, bw, fin⟩
      rcases cw with _ | e <;> rcases rd with _ | _ | m <;>
        rcases bw with _ | e2 <;> rcases fin with _ | _ | m2 <;> simp_all

/-- Witness for `send_ignores_deadline`: deadlines 0 and 7 on a
successful send over `tbl5` agree, and its two waits use 1000 ms. -/
theorem send_ignores_deadline_witness :
    sendOp tbl5 0 [1, 2] 0 0 ⟨none, .signal, none, .signal⟩ =
      sendOp tbl5 0 [1, 2] 0 7 ⟨none, .signal, none, .signal⟩ ∧
    (1000 : Nat) = 1000 ∧ (1000 : Nat) = 1000 :=
  ⟨send_ignores_deadline.1 tbl5 0 [1, 2] 0 0 7 ⟨none, .signal, none, .signal⟩,
   send_ignores_deadline.2.1 tbl5 0 [1, 2] 0 0 ⟨none, .signal, none, .signal⟩
      1000 (by decide),
   send_ignores_deadline.2.2 tbl5 0 [1, 2] 0 0 ⟨none, .signal, none, .signal⟩
      1000 (by decide)⟩

end Comboat
